import Mathlib

/-!
Verification of the MIZU Sensor Hub core: the multi-format telemetry
decoder (`database_manager.py`, class `DatabaseManager`) and the serial
session lifecycle (`serial_manager.py`, class `SerialManager`).

The decoder is embedded shallowly over `List Char` (named `Str` below).
Python floats are modelled symbolically: a parsed float value is kept as
the source token (a `Str`); `_safe_float` succeeds exactly when the token
satisfies the Python `float()` grammar (modelled for ASCII input, without
digit underscores).  No claim below depends on the numeric value of a
float, only on parse success and on which token a field came from, so
this avoids floating-point arithmetic entirely.

A parsed record is a Python dict over a fixed key set; `SensorDict`
models it with one `Option` layer for key presence and (for the seven
sensor fields) an inner `Option` for a present key holding `None`.

I/O is abstracted by oracles: the serial-port probe, open and close
calls are function parameters returning `Except`, mirroring the caught
exception classes.
-/

namespace Mizu

abbrev Str := List Char

/-- ASCII whitespace stripped by Python `str.strip()` (and by `float()`). -/
def isPyWS (c : Char) : Bool :=
  c = ' ' || c = '\t' || c = '\n' || c = '\r' || c = '\x0b' || c = '\x0c'

/-- Python `str.strip()`: drop whitespace from both ends. -/
def pyStrip (l : Str) : Str :=
  ((l.dropWhile isPyWS).reverse.dropWhile isPyWS).reverse

/-- Python `str.split(sep)` for a one-character separator:
`''.split(',') = ['']`, empty segments kept. -/
def pySplit (sep : Char) : Str → List Str
  | [] => [[]]
  | c :: cs =>
    let r := pySplit sep cs
    if c = sep then [] :: r
    else
      match r with
      | [] => [[c]]
      | h :: t => (c :: h) :: t

/-- Python `str.lower()` (ASCII model). -/
def lowerStr (l : Str) : Str := l.map Char.toLower

/-- `data_string.startswith('{')`. -/
def startsBrace (l : Str) : Bool :=
  match l with
  | '{' :: _ => true
  | _ => false

/-- `data_string.endswith('}')`. -/
def endsBrace (l : Str) : Bool :=
  match l.getLast? with
  | some '}' => true
  | _ => false

/-- Longest digit run at the head, and the rest. -/
def spanDigits (l : Str) : Str × Str :=
  (l.takeWhile Char.isDigit, l.dropWhile Char.isDigit)

/-- Exponent-part digits of a Python float literal: optional sign then a
nonempty digit run consuming the whole rest. -/
def expDigits (l : Str) : Bool :=
  let l1 := match l with
            | '+' :: t => t
            | '-' :: t => t
            | _ => l
  let (d, rest) := spanDigits l1
  !d.isEmpty && rest.isEmpty

/-- Optional exponent at the end of a Python float literal. -/
def expOk (l : Str) : Bool :=
  match l with
  | [] => true
  | 'e' :: r => expDigits r
  | 'E' :: r => expDigits r
  | _ => false

/-- Mantissa-and-exponent body of a Python float literal (sign already
removed): digits [. digits] [exp] or . digits [exp]. -/
def floatBody (l : Str) : Bool :=
  let (d1, r1) := spanDigits l
  if !d1.isEmpty then
    match r1 with
    | '.' :: r2 =>
      let (_, r3) := spanDigits r2
      expOk r3
    | _ => expOk r1
  else
    match l with
    | '.' :: r2 =>
      let (d2, r3) := spanDigits r2
      !d2.isEmpty && expOk r3
    | _ => false

/-- Remove one leading sign character, as `float()` does. -/
def stripSign (t : Str) : Str :=
  if t.take 1 = ['+'] ∨ t.take 1 = ['-'] then t.drop 1 else t

/-- Does Python `float(s)` succeed?  Models the CPython grammar on ASCII
input: surrounding whitespace, optional sign, then a decimal body or one
of inf/infinity/nan (case-insensitive).  Digit underscores are not
modelled; no claim depends on them. -/
def pyFloatValid (s : Str) : Bool :=
  floatBody (stripSign (pyStrip s)) ||
    (lowerStr (stripSign (pyStrip s)) = "inf".data ||
     lowerStr (stripSign (pyStrip s)) = "infinity".data ||
     lowerStr (stripSign (pyStrip s)) = "nan".data)

/-- `DatabaseManager._safe_float` on a string value: `float(value)` with
`ValueError` caught; the float is kept symbolically as its source token. -/
def safe_floatStr (s : Str) : Option Str :=
  if pyFloatValid s then some s else none

/-! ### The regex scan of `_parse_generic_format`

`re.findall(r'-?\d+\.?\d*', data_string)`: leftmost non-overlapping
greedy matches of an optional minus, a nonempty digit run, an optional
dot and a further digit run. -/

/-- After the integer digits of a match, greedily take an optional
`.digits*` continuation; returns (full token, rest). -/
def afterDigits (tok : Str) (r : Str) : Str × Str :=
  if r.take 1 = ['.'] then
    (tok ++ '.' :: (r.drop 1).takeWhile Char.isDigit,
     (r.drop 1).dropWhile Char.isDigit)
  else (tok, r)

/-- Try to match the numeric regex at the head of the string. -/
def matchNumAt : Str → Option (Str × Str)
  | [] => none
  | c :: cs =>
    if c = '-' then
      if (cs.takeWhile Char.isDigit).isEmpty then none
      else some (afterDigits ('-' :: cs.takeWhile Char.isDigit)
        (cs.dropWhile Char.isDigit))
    else if c.isDigit then
      some (afterDigits ((c :: cs).takeWhile Char.isDigit)
        ((c :: cs).dropWhile Char.isDigit))
    else none

/-- Fuelled scan; every step strictly shortens the string, so fuel equal
to the length never runs out. -/
def findNumbersAux : Nat → Str → List Str
  | 0, _ => []
  | _ + 1, [] => []
  | fuel + 1, c :: cs =>
    match matchNumAt (c :: cs) with
    | some (tok, rest) => tok :: findNumbersAux fuel rest
    | none => findNumbersAux fuel cs

/-- All matches of `-?\d+\.?\d*` in order of appearance. -/
def findNumbers (s : Str) : List Str :=
  findNumbersAux s.length s

/-! ### The record dict -/

/-- The dict built by the `_parse_*_format` methods.  Outer `none` models
a key absent from the dict; `some none` a key present with value `None`;
`some (some tok)` a key present with the float parsed from `tok`. -/
structure SensorDict where
  device_id : Option Str
  ambient_temperature : Option (Option Str)
  humidity : Option (Option Str)
  soil_moisture : Option (Option Str)
  soil_temperature : Option (Option Str)
  wind_speed : Option (Option Str)
  longitude : Option (Option Str)
  latitude : Option (Option Str)
  transmitted : Option Bool
deriving DecidableEq, Repr

/-- The empty dict `data = {}` of `_parse_key_value_format`. -/
def emptyData : SensorDict :=
  ⟨none, none, none, none, none, none, none, none, none⟩

/-! ### JSON branch

`_parse_json_format` calls `json.loads`.  Modelled from the spec and the
`json` library contract, restricted to flat objects whose keys are
escape-free strings and whose values are strings, numbers, `null`,
`true` or `false`; nested containers and string escapes are out of the
model (the claims settled against the JSON branch only evaluate it on
`{}`). -/

inductive JValue where
  | jstr (s : Str)
  | jnum (s : Str)
  | jnull
  | jbool (b : Bool)
deriving DecidableEq, Repr

/-- JSON insignificant whitespace. -/
def skipWS (l : Str) : Str :=
  l.dropWhile (fun c => c = ' ' || c = '\t' || c = '\n' || c = '\r')

/-- Parse a JSON string literal (no escapes) starting at a quote. -/
def parseJStringAux : Str → Option (Str × Str)
  | [] => none
  | '"' :: r => some ([], r)
  | '\\' :: _ => none
  | c :: r =>
    match parseJStringAux r with
    | some (s, rest) => some (c :: s, rest)
    | none => none

def parseJString : Str → Option (Str × Str)
  | '"' :: rest => parseJStringAux rest
  | _ => none

/-- Parse a JSON number, kept as its token. -/
def parseJNumber (l : Str) : Option (Str × Str) :=
  let (sign, l1) := match l with
                    | '-' :: r => (['-'], r)
                    | _ => (([] : Str), l)
  let (d1, r1) := spanDigits l1
  if d1.isEmpty then none
  else
    let (frac, r2) := match r1 with
                      | '.' :: rf =>
                        let (d2, rs) := spanDigits rf
                        if d2.isEmpty then (([] : Str), r1) else ('.' :: d2, rs)
                      | _ => (([] : Str), r1)
    let (ex, r3) := match r2 with
                    | 'e' :: re0 =>
                      let (sg, re1) := match re0 with
                                       | '+' :: t => (['+'], t)
                                       | '-' :: t => (['-'], t)
                                       | _ => (([] : Str), re0)
                      let (d3, re2) := spanDigits re1
                      if d3.isEmpty then (([] : Str), r2) else ('e' :: sg ++ d3, re2)
                    | 'E' :: re0 =>
                      let (sg, re1) := match re0 with
                                       | '+' :: t => (['+'], t)
                                       | '-' :: t => (['-'], t)
                                       | _ => (([] : Str), re0)
                      let (d3, re2) := spanDigits re1
                      if d3.isEmpty then (([] : Str), r2) else ('E' :: sg ++ d3, re2)
                    | _ => (([] : Str), r2)
    some (sign ++ d1 ++ frac ++ ex, r3)

def parseJValue (l : Str) : Option (JValue × Str) :=
  match l with
  | '"' :: _ => (parseJString l).map (fun p => (.jstr p.1, p.2))
  | _ =>
    if l.take 4 = "null".data then some (.jnull, l.drop 4)
    else if l.take 4 = "true".data then some (.jbool true, l.drop 4)
    else if l.take 5 = "false".data then some (.jbool false, l.drop 5)
    else (parseJNumber l).map (fun p => (.jnum p.1, p.2))

/-- Parse one or more comma-separated members of an object. -/
def parseMembers : Nat → Str → Option (List (Str × JValue) × Str)
  | 0, _ => none
  | fuel + 1, l =>
    match parseJString l with
    | none => none
    | some (k, r1) =>
      match skipWS r1 with
      | ':' :: r2 =>
        match parseJValue (skipWS r2) with
        | none => none
        | some (v, r3) =>
          match skipWS r3 with
          | ',' :: r4 =>
            match parseMembers fuel (skipWS r4) with
            | some (ms, rest) => some ((k, v) :: ms, rest)
            | none => none
          | rest => some ([(k, v)], rest)
      | _ => none

/-- Modelled from the spec: `json.loads` restricted to a flat object. -/
def jsonLoads (s : Str) : Option (List (Str × JValue)) :=
  match skipWS s with
  | '{' :: r =>
    match skipWS r with
    | '}' :: r2 => if (skipWS r2).isEmpty then some [] else none
    | r1 =>
      match parseMembers (r1.length + 1) r1 with
      | some (ms, rest) =>
        match skipWS rest with
        | '}' :: r2 => if (skipWS r2).isEmpty then some ms else none
        | _ => none
      | none => none
  | _ => none

/-- Python dict lookup (`data.get(k)`): the last duplicate wins. -/
def jget (obj : List (Str × JValue)) (k : Str) : Option JValue :=
  (obj.reverse.find? (fun p => p.1 == k)).map (fun p => p.2)

/-- Python `str()` of a JSON value, at the token level. -/
def pyStr (v : JValue) : Str :=
  match v with
  | .jstr s => s
  | .jnum s => s
  | .jnull => "None".data
  | .jbool true => "True".data
  | .jbool false => "False".data

/-- `_safe_float` applied to `data.get(key)` for a JSON value:
`float(None)` and a missing key give `None`; a JSON number always
converts; a string converts when the float grammar accepts it;
`float(True) = 1.0`, `float(False) = 0.0`. -/
def safe_floatJ (v : Option JValue) : Option Str :=
  match v with
  | none => none
  | some .jnull => none
  | some (.jnum s) => some s
  | some (.jstr s) => safe_floatStr s
  | some (.jbool true) => some "1.0".data
  | some (.jbool false) => some "0.0".data

/-- `DatabaseManager._parse_json_format`. -/
def _parse_json_format (s : Str) : Option SensorDict :=
  match jsonLoads s with
  | none => none
  | some obj =>
    some {
      device_id := some (match jget obj "device_id".data with
                         | none => "unknown".data
                         | some v => pyStr v),
      ambient_temperature := some (safe_floatJ (jget obj "ambient_temp".data)),
      humidity := some (safe_floatJ (jget obj "humidity".data)),
      soil_moisture := some (safe_floatJ (jget obj "soil_moisture".data)),
      soil_temperature := some (safe_floatJ (jget obj "soil_temp".data)),
      wind_speed := some (safe_floatJ (jget obj "wind_speed".data)),
      longitude := some (safe_floatJ (jget obj "longitude".data)),
      latitude := some (safe_floatJ (jget obj "latitude".data)),
      transmitted := some false }

/-! ### CSV branch -/

/-- `DatabaseManager._parse_csv_format` (`parts` is the source's
`data_string.split(',')`). -/
def _parse_csv_format_parts (parts : List Str) : Option SensorDict :=
  if 5 ≤ parts.length then
    some {
      device_id := some (pyStrip (parts.getD 0 [])),
      ambient_temperature := some (safe_floatStr (parts.getD 1 [])),
      humidity := some (safe_floatStr (parts.getD 2 [])),
      soil_moisture := some (safe_floatStr (parts.getD 3 [])),
      soil_temperature := some (safe_floatStr (parts.getD 4 [])),
      wind_speed := some (if 5 < parts.length
                          then safe_floatStr (parts.getD 5 []) else none),
      longitude := some (if 6 < parts.length
                         then safe_floatStr (parts.getD 6 []) else none),
      latitude := some (if 7 < parts.length
                        then safe_floatStr (parts.getD 7 []) else none),
      transmitted := some false }
  else none

def _parse_csv_format (s : Str) : Option SensorDict :=
  _parse_csv_format_parts (pySplit ',' s)

/-! ### key=value branch -/

/-- The part of a pair before the first `=` (`pair.split('=', 1)[0]`). -/
def keyPart (p : Str) : Str := p.takeWhile (fun c => c ≠ '=')

/-- The part of a pair after the first `=` (`pair.split('=', 1)[1]`). -/
def valPart (p : Str) : Str := ((p.dropWhile (fun c => c ≠ '=')).drop 1)

/-- `key.strip().lower()` of a pair. -/
def normKey (p : Str) : Str := lowerStr (pyStrip (keyPart p))

/-- One iteration of the loop in `_parse_key_value_format`: the pair is
skipped when it has no `=` or an unrecognized key; otherwise the dict
entry for its key is (over)written. -/
def processPair (d : SensorDict) (p : Str) : SensorDict :=
  if p.elem '=' then
    let key := normKey p
    let value := pyStrip (valPart p)
    if key = "device_id".data then { d with device_id := some value }
    else if key = "ambient_temp".data then
      { d with ambient_temperature := some (safe_floatStr value) }
    else if key = "humidity".data then
      { d with humidity := some (safe_floatStr value) }
    else if key = "soil_moisture".data then
      { d with soil_moisture := some (safe_floatStr value) }
    else if key = "soil_temp".data then
      { d with soil_temperature := some (safe_floatStr value) }
    else if key = "wind_speed".data then
      { d with wind_speed := some (safe_floatStr value) }
    else if key = "longitude".data then
      { d with longitude := some (safe_floatStr value) }
    else if key = "latitude".data then
      { d with latitude := some (safe_floatStr value) }
    else d
  else d

/-- The dict built by the pair loop. -/
def buildData (ps : List Str) : SensorDict := ps.foldl processPair emptyData

/-- The success check of `_parse_key_value_format`:
`'device_id' in data and any(key in data for key in [...])`. -/
def kvCheck (d : SensorDict) : Bool :=
  d.device_id.isSome &&
    (d.ambient_temperature.isSome || d.humidity.isSome ||
     d.soil_moisture.isSome || d.soil_temperature.isSome ||
     d.wind_speed.isSome || d.longitude.isSome || d.latitude.isSome)

/-- `DatabaseManager._parse_key_value_format`. -/
def _parse_key_value_format (s : Str) : Option SensorDict :=
  if kvCheck (buildData (pySplit ',' s)) then
    some { buildData (pySplit ',' s) with transmitted := some false }
  else none

/-! ### generic numeric branch -/

/-- `DatabaseManager._parse_generic_format` (`numbers` is the source's
`re.findall(r'-?\d+\.?\d*', data_string)`). -/
def _parse_generic_format_nums (numbers : List Str) : Option SensorDict :=
  if 4 ≤ numbers.length then
    some {
      device_id := some "unknown".data,
      ambient_temperature := some (safe_floatStr (numbers.getD 0 [])),
      humidity := some (safe_floatStr (numbers.getD 1 [])),
      soil_moisture := some (safe_floatStr (numbers.getD 2 [])),
      soil_temperature := some (safe_floatStr (numbers.getD 3 [])),
      wind_speed := some (if 4 < numbers.length
                          then safe_floatStr (numbers.getD 4 []) else none),
      longitude := some (if 5 < numbers.length
                         then safe_floatStr (numbers.getD 5 []) else none),
      latitude := some (if 6 < numbers.length
                        then safe_floatStr (numbers.getD 6 []) else none),
      transmitted := some false }
  else none

def _parse_generic_format (s : Str) : Option SensorDict :=
  _parse_generic_format_nums (findNumbers s)

/-! ### dispatch -/

inductive Format where
  | json | kv | csv | generic
deriving DecidableEq, Repr

/-- The if-chain of `_parse_sensor_data` on the stripped line: braces,
then `=`, then `,`, then the generic fallback. -/
def classify (s : Str) : Format :=
  if startsBrace s && endsBrace s then .json
  else if s.elem '=' then .kv
  else if s.elem ',' then .csv
  else .generic

/-- `DatabaseManager._parse_sensor_data`: strip, classify, run the
selected format's sub-parse (no fallthrough between formats). -/
def _parse_sensor_data (s : Str) : Option SensorDict :=
  let t := pyStrip s
  match classify t with
  | .json => _parse_json_format t
  | .kv => _parse_key_value_format t
  | .csv => _parse_csv_format t
  | .generic => _parse_generic_format t

/-! ## Serial manager (`serial_manager.py`)

I/O is represented by oracle functions.  `SerialErr` stands for the
exception classes the source catches (`serial.SerialException`,
`OSError`); an `Except.error` result models the call raising. -/

inductive SerialErr where
  | serialError
deriving DecidableEq, Repr

inductive EnvError where
  | unsupportedPlatform
deriving DecidableEq, Repr

/-- Did the probe of a candidate port succeed? -/
def probeOk (probe : Str → Except SerialErr Unit) (p : Str) : Bool :=
  match probe p with
  | .ok _ => true
  | .error _ => false

/-- The probe loop of `scan_available_ports`: open-and-close each
candidate; `OSError`/`SerialException` skips that candidate
(`continue`), every other candidate is still probed. -/
def probeLoop (probe : Str → Except SerialErr Unit) : List Str → List Str
  | [] => []
  | p :: ps =>
    match probe p with
    | .ok _ => p :: probeLoop probe ps
    | .error _ => probeLoop probe ps

/-- `SerialManager.scan_available_ports`.  Platform-dependent candidate
generation (the `sys.platform` dispatch plus `glob`) is abstracted as
`candidates`: `none` models an unsupported platform, where the source
raises `EnvironmentError`. -/
def scan_available_ports (candidates : Option (List Str))
    (probe : Str → Except SerialErr Unit) : Except EnvError (List Str) :=
  match candidates with
  | none => .error .unsupportedPlatform
  | some ports => .ok (probeLoop probe ports)

/-- From `config.py`. -/
def OS_WINDOWS : Nat := 1

/-- From `config.py`. -/
def OS_LINUX : Nat := 2

/-- The mutable state of a `SerialManager` instance; the serial handle
is abstracted as a `Nat`, the monitoring thread object as `Option Unit`. -/
structure Session where
  serial_connection : Option Nat
  is_connected : Bool
  should_monitor_data : Bool
  data_monitoring_thread : Option Unit
deriving DecidableEq, Repr

/-- The state set up by `SerialManager.__init__`. -/
def initSession : Session := ⟨none, false, false, none⟩

/-- A Session is `Idle` when it is not connected and holds no handle. -/
def isIdle (s : Session) : Bool :=
  !s.is_connected && s.serial_connection.isNone

/-- `SerialManager._start_data_monitoring`. -/
def start_data_monitoring (s : Session) : Session :=
  { s with should_monitor_data := true, data_monitoring_thread := some () }

/-- `SerialManager.connect`: the open call is the oracle `openS` (path,
baud rate) which either returns a handle or raises `SerialException`
(caught, returning `False` with `is_connected = False`); an unknown
`os_type` returns `False` without opening anything. -/
def connect (openS : Str → Nat → Except SerialErr Nat) (s : Session)
    (port : Str) (baud : Nat) (osType : Nat) : Bool × Session :=
  if osType = OS_LINUX then
    match openS ("/dev/tty".data ++ port) baud with
    | .ok h =>
      (true, start_data_monitoring
        { s with serial_connection := some h, is_connected := true })
    | .error _ => (false, { s with is_connected := false })
  else if osType = OS_WINDOWS then
    match openS port baud with
    | .ok h =>
      (true, start_data_monitoring
        { s with serial_connection := some h, is_connected := true })
    | .error _ => (false, { s with is_connected := false })
  else (false, s)

/-- `SerialManager.disconnect`: stop monitoring, close the handle if one
is held (a close error is printed and swallowed; the `finally` clears
the handle either way), mark not connected. -/
def disconnect (closeS : Nat → Except SerialErr Unit) (s : Session) : Session :=
  let s1 := { s with should_monitor_data := false }
  let s2 :=
    match s1.serial_connection with
    | some h =>
      match closeS h with
      | .ok _ => { s1 with serial_connection := none }
      | .error _ => { s1 with serial_connection := none }
    | none => s1
  { s2 with is_connected := false }

/-! ## Predicates used to state the claims -/

/-- A present sensor field: the dict key exists and its value is not
`None`. -/
def presentVal : Option (Option Str) → Bool
  | some (some _) => true
  | _ => false

/-- At least one of the seven sensor fields carries a value. -/
def hasSensorValue (d : SensorDict) : Bool :=
  presentVal d.ambient_temperature || presentVal d.humidity ||
  presentVal d.soil_moisture || presentVal d.soil_temperature ||
  presentVal d.wind_speed || presentVal d.longitude || presentVal d.latitude

/-- The seven recognized sensor keys of the key=value format. -/
inductive SKey where
  | kAmbient | kHumidity | kSoilM | kSoilT | kWind | kLong | kLat
deriving DecidableEq, Repr

/-- Dict lookup for a sensor key. -/
def sensorGet (d : SensorDict) : SKey → Option (Option Str)
  | .kAmbient => d.ambient_temperature
  | .kHumidity => d.humidity
  | .kSoilM => d.soil_moisture
  | .kSoilT => d.soil_temperature
  | .kWind => d.wind_speed
  | .kLong => d.longitude
  | .kLat => d.latitude

/-- Which sensor key a normalized key string selects. -/
def skeyOfStr (k : Str) : Option SKey :=
  if k = "ambient_temp".data then some .kAmbient
  else if k = "humidity".data then some .kHumidity
  else if k = "soil_moisture".data then some .kSoilM
  else if k = "soil_temp".data then some .kSoilT
  else if k = "wind_speed".data then some .kWind
  else if k = "longitude".data then some .kLong
  else if k = "latitude".data then some .kLat
  else none

/-- The sensor key assigned by a comma-segment, if any: segments without
`=` and unrecognized keys assign nothing. -/
def pairSKey (p : Str) : Option SKey :=
  if p.elem '=' then skeyOfStr (normKey p) else none

/-- Does a comma-segment assign `device_id`? -/
def pairIsDevice (p : Str) : Bool :=
  p.elem '=' && decide (normKey p = "device_id".data)

/-- Some segment of the line assigns `device_id`. -/
def hasDevicePairAny (ps : List Str) : Bool := ps.any pairIsDevice

/-- Some segment of the line assigns a recognized sensor key. -/
def hasSensorKeyAny (ps : List Str) : Bool :=
  ps.any (fun p => (pairSKey p).isSome)

/-- The value assigned by the last `device_id` segment, if any. -/
def lastDeviceVal : List Str → Option Str
  | [] => none
  | p :: rest =>
    match lastDeviceVal rest with
    | some v => some v
    | none => if pairIsDevice p then some (pyStrip (valPart p)) else none

/-- The dict entry assigned by the last segment carrying sensor key `k`,
if any. -/
def lastSensorVal (k : SKey) : List Str → Option (Option Str)
  | [] => none
  | p :: rest =>
    match lastSensorVal k rest with
    | some v => some v
    | none =>
      if pairSKey p = some k then some (safe_floatStr (pyStrip (valPart p)))
      else none

/-- Did the line explicitly supply a device identifier under its
classified format?  A key=value line supplies one when some segment
assigns `device_id`; a delimited line always does (position 1); a
structured-object line when the object has a `device_id` key; the
generic numeric format never does. -/
def suppliesDeviceId (s : Str) : Bool :=
  match classify s with
  | .json =>
    match jsonLoads s with
    | some obj => (jget obj "device_id".data).isSome
    | none => false
  | .kv => hasDevicePairAny (pySplit ',' s)
  | .csv => true
  | .generic => false

/-- Key-case equivalence of two comma-segments: either both carry `=`
with keys equal up to character case and identical values, or the
segments are identical. -/
def eqvPair (p q : Str) : Bool :=
  if p.elem '=' then
    q.elem '=' && decide (lowerStr (keyPart p) = lowerStr (keyPart q)) &&
      decide (valPart p = valPart q)
  else decide (p = q)

/-- Pointwise key-case equivalence of two segment lists. -/
def eqvPairs : List Str → List Str → Bool
  | [], [] => true
  | p :: ps, q :: qs => eqvPair p q && eqvPairs ps qs
  | _, _ => false

/-- Concrete oracles and states used by the witnesses. -/
def failOpen : Str → Nat → Except SerialErr Nat := fun _ _ => .error .serialError

def failClose : Nat → Except SerialErr Unit := fun _ => .error .serialError

def probe0 : Str → Except SerialErr Unit :=
  fun p => if p = "COM1".data then .ok () else .error .serialError

def sessionC : Session := ⟨some 5, true, true, some ()⟩

/-! ## Lemmas -/

theorem parse_eq_dispatch (s : Str) (hTrim : pyStrip s = s) :
    _parse_sensor_data s =
      (match classify s with
       | .json => _parse_json_format s
       | .kv => _parse_key_value_format s
       | .csv => _parse_csv_format s
       | .generic => _parse_generic_format s) := by
  simp only [_parse_sensor_data, hTrim]

theorem classify_kv (s : Str) (hBrace : (startsBrace s && endsBrace s) = false)
    (hEq : s.elem '=' = true) : classify s = Format.kv := by
  have h1 : '=' ∈ s := List.elem_iff.mp hEq
  simp [classify, hBrace, h1]

theorem classify_csv (s : Str) (hBrace : (startsBrace s && endsBrace s) = false)
    (hEq : s.elem '=' = false) (hComma : s.elem ',' = true) :
    classify s = Format.csv := by
  have h1 : ¬('=' ∈ s) := by intro hm; rw [List.elem_iff.mpr hm] at hEq; exact Bool.noConfusion hEq
  have h2 : ',' ∈ s := List.elem_iff.mp hComma
  simp [classify, hBrace, h1, h2]

theorem classify_generic (s : Str)
    (hBrace : (startsBrace s && endsBrace s) = false)
    (hEq : s.elem '=' = false) (hComma : s.elem ',' = false) :
    classify s = Format.generic := by
  have h1 : ¬('=' ∈ s) := by intro hm; rw [List.elem_iff.mpr hm] at hEq; exact Bool.noConfusion hEq
  have h2 : ¬(',' ∈ s) := by intro hm; rw [List.elem_iff.mpr hm] at hComma; exact Bool.noConfusion hComma
  simp [classify, hBrace, h1, h2]

theorem probeLoop_eq_filter (probe : Str → Except SerialErr Unit)
    (ps : List Str) : probeLoop probe ps = ps.filter (probeOk probe) := by
  induction ps with
  | nil => rfl
  | cons p rest ih =>
    simp only [probeLoop, probeOk, List.filter]
    cases h : probe p <;> simp [h, ih, probeOk]

/-! ## Claims -/

/-- C3: a trimmed line that contains both an equals sign and a comma and
is not brace-delimited is classified as the key=value format (never the
delimited one), following the fixed priority braces, `=`, `,`, generic;
the whole parse is then the key=value sub-parse. -/
theorem c3_kv_priority (s : Str) (hTrim : pyStrip s = s)
    (hBrace : (startsBrace s && endsBrace s) = false)
    (hEq : s.elem '=' = true) (hComma : s.elem ',' = true) :
    classify s = Format.kv ∧
      _parse_sensor_data s = _parse_key_value_format s := by
  have hc := classify_kv s hBrace hEq
  refine ⟨hc, ?_⟩
  rw [parse_eq_dispatch s hTrim, hc]

theorem c3_kv_priority_witness :
    classify "device_id=A,humidity=1".data = Format.kv ∧
      _parse_sensor_data "device_id=A,humidity=1".data =
        _parse_key_value_format "device_id=A,humidity=1".data :=
  c3_kv_priority "device_id=A,humidity=1".data (by decide) (by decide)
    (by decide) (by decide)

/-- C7: on a supported platform the scan returns (never raises), every
returned port is one whose open probe succeeded, and a probe error on an
individual candidate only removes that candidate from the result. -/
theorem c7_scan_ports (candidates : Option (List Str))
    (probe : Str → Except SerialErr Unit) (ports : List Str)
    (hsup : candidates = some ports) :
    scan_available_ports candidates probe = .ok (probeLoop probe ports)
    ∧ (∀ p, p ∈ probeLoop probe ports → probeOk probe p = true)
    ∧ (∀ pre post q e, probe q = .error e →
        probeLoop probe (pre ++ q :: post) = probeLoop probe (pre ++ post)) := by
  subst hsup
  refine ⟨rfl, ?_, ?_⟩
  · intro p hp
    rw [probeLoop_eq_filter] at hp
    exact (List.mem_filter.mp hp).2
  · intro pre post q e hq
    rw [probeLoop_eq_filter, probeLoop_eq_filter, List.filter_append,
      List.filter_append, List.filter_cons]
    have : probeOk probe q = false := by simp [probeOk, hq]
    simp [this]

theorem c7_scan_ports_witness :
    scan_available_ports (some ["COM1".data, "COM2".data]) probe0 =
      .ok (probeLoop probe0 ["COM1".data, "COM2".data])
    ∧ (∀ p, p ∈ probeLoop probe0 ["COM1".data, "COM2".data] →
        probeOk probe0 p = true)
    ∧ probeLoop probe0 (["COM1".data] ++ "COM2".data :: []) =
        probeLoop probe0 (["COM1".data] ++ []) :=
  have h := c7_scan_ports (some ["COM1".data, "COM2".data]) probe0
    ["COM1".data, "COM2".data] rfl
  ⟨h.1, h.2.1, h.2.2 ["COM1".data] [] "COM2".data .serialError rfl⟩

/-- C8: `connect` on an Idle session, when every open attempt raises,
returns `false` and leaves the session Idle for every `os_type`; the
exception is caught inside `connect` (the embedding is a total
function, so nothing propagates). -/
theorem c8_connect_open_failure (openS : Str → Nat → Except SerialErr Nat)
    (s : Session) (port : Str) (baud : Nat) (e : SerialErr)
    (hIdle : isIdle s = true) (hfail : ∀ p b, openS p b = .error e) :
    ∀ osType, (connect openS s port baud osType).1 = false ∧
      isIdle (connect openS s port baud osType).2 = true := by
  intro osType
  have h2 : s.serial_connection = none := by
    simp [isIdle, Option.isNone_iff_eq_none] at hIdle
    exact hIdle.2
  unfold connect
  split_ifs
  · rw [hfail]
    exact ⟨rfl, by simp [isIdle, h2]⟩
  · rw [hfail]
    exact ⟨rfl, by simp [isIdle, h2]⟩
  · exact ⟨rfl, hIdle⟩

theorem c8_connect_open_failure_witness :
    (connect failOpen initSession "USB0".data 9600 OS_LINUX).1 = false ∧
      isIdle (connect failOpen initSession "USB0".data 9600 OS_LINUX).2 = true :=
  c8_connect_open_failure failOpen initSession "USB0".data 9600 .serialError
    (by decide) (fun _ _ => rfl) OS_LINUX

/-- C9: `disconnect` on an Idle session leaves it Idle with the handle
cleared and monitoring stopped (a total no-op, no exception), and a
second `disconnect` right after a first changes nothing more. -/
theorem c9_disconnect_idempotent (closeS : Nat → Except SerialErr Unit)
    (s : Session) (hIdle : isIdle s = true) :
    isIdle (disconnect closeS s) = true
    ∧ (disconnect closeS s).serial_connection = none
    ∧ (disconnect closeS s).should_monitor_data = false
    ∧ ∀ t, disconnect closeS (disconnect closeS t) = disconnect closeS t := by
  have h2 : s.serial_connection = none := by
    simp [isIdle, Option.isNone_iff_eq_none] at hIdle
    exact hIdle.2
  refine ⟨?_, ?_, ?_, ?_⟩
  · simp [disconnect, isIdle, h2]
  · simp [disconnect, h2]
  · simp [disconnect, h2]
  · intro t
    cases h : t.serial_connection with
    | none => simp [disconnect, h]
    | some hd => cases hc : closeS hd <;> simp [disconnect, h, hc]

theorem c9_disconnect_idempotent_witness :
    isIdle (disconnect failClose initSession) = true
    ∧ (disconnect failClose initSession).serial_connection = none
    ∧ (disconnect failClose initSession).should_monitor_data = false
    ∧ disconnect failClose (disconnect failClose sessionC) =
        disconnect failClose sessionC :=
  have h := c9_disconnect_idempotent failClose initSession (by decide)
  ⟨h.1, h.2.1, h.2.2.1, h.2.2.2 sessionC⟩

/-- C4: a trimmed line classified as the delimited format (a comma, no
equals sign, not brace-delimited) fails terminally when splitting on the
comma yields fewer than five positions — it does not fall through to the
generic numeric format — and with exactly five positions it succeeds
with device_id from position 1, the four sensor values from positions
2–5, and wind_speed, longitude, latitude present with no value. -/
theorem c4_delimited (s : Str) (hTrim : pyStrip s = s)
    (hBrace : (startsBrace s && endsBrace s) = false)
    (hEq : s.elem '=' = false) (hComma : s.elem ',' = true) :
    ((pySplit ',' s).length < 5 → _parse_sensor_data s = none)
    ∧ ((pySplit ',' s).length = 5 → _parse_sensor_data s = some {
        device_id := some (pyStrip ((pySplit ',' s).getD 0 [])),
        ambient_temperature := some (safe_floatStr ((pySplit ',' s).getD 1 [])),
        humidity := some (safe_floatStr ((pySplit ',' s).getD 2 [])),
        soil_moisture := some (safe_floatStr ((pySplit ',' s).getD 3 [])),
        soil_temperature := some (safe_floatStr ((pySplit ',' s).getD 4 [])),
        wind_speed := some none, longitude := some none,
        latitude := some none, transmitted := some false }) := by
  have hd := parse_eq_dispatch s hTrim
  rw [classify_csv s hBrace hEq hComma] at hd
  constructor
  · intro hlen
    rw [hd]
    unfold _parse_csv_format _parse_csv_format_parts
    rw [if_neg (by omega)]
  · intro hlen
    rw [hd]
    unfold _parse_csv_format _parse_csv_format_parts
    rw [if_pos (by omega), if_neg (by omega), if_neg (by omega),
      if_neg (by omega)]

theorem c4_delimited_witness :
    _parse_sensor_data "1.0,2.0,3.0,4.0".data = none
    ∧ _parse_sensor_data "T2,26.1,58.9,42.3,23.5".data = some {
        device_id := some "T2".data,
        ambient_temperature := some (some "26.1".data),
        humidity := some (some "58.9".data),
        soil_moisture := some (some "42.3".data),
        soil_temperature := some (some "23.5".data),
        wind_speed := some none, longitude := some none,
        latitude := some none, transmitted := some false } :=
  ⟨(c4_delimited "1.0,2.0,3.0,4.0".data rfl rfl rfl rfl).1 (by decide),
   (c4_delimited "T2,26.1,58.9,42.3,23.5".data rfl rfl rfl rfl).2 (by decide)⟩

/-- C5: a trimmed line classified as the generic numeric format (no
equals sign, no comma, not brace-delimited) fails when fewer than four
numeric substrings are extracted, and with four or more succeeds with
the positional mapping ambient_temp, humidity, soil_moisture, soil_temp,
then optional wind_speed, longitude, latitude, and device_id equal to
"unknown"; `findNumbers` extracts the substrings matching the
signed-decimal pattern in order of appearance. -/
theorem c5_generic (s : Str) (hTrim : pyStrip s = s)
    (hBrace : (startsBrace s && endsBrace s) = false)
    (hEq : s.elem '=' = false) (hComma : s.elem ',' = false) :
    ((findNumbers s).length < 4 → _parse_sensor_data s = none)
    ∧ (4 ≤ (findNumbers s).length → _parse_sensor_data s = some {
        device_id := some "unknown".data,
        ambient_temperature := some (safe_floatStr ((findNumbers s).getD 0 [])),
        humidity := some (safe_floatStr ((findNumbers s).getD 1 [])),
        soil_moisture := some (safe_floatStr ((findNumbers s).getD 2 [])),
        soil_temperature := some (safe_floatStr ((findNumbers s).getD 3 [])),
        wind_speed := some (if 4 < (findNumbers s).length
                            then safe_floatStr ((findNumbers s).getD 4 [])
                            else none),
        longitude := some (if 5 < (findNumbers s).length
                           then safe_floatStr ((findNumbers s).getD 5 [])
                           else none),
        latitude := some (if 6 < (findNumbers s).length
                          then safe_floatStr ((findNumbers s).getD 6 [])
                          else none),
        transmitted := some false }) := by
  have hd := parse_eq_dispatch s hTrim
  rw [classify_generic s hBrace hEq hComma] at hd
  constructor
  · intro hlen
    rw [hd]
    unfold _parse_generic_format _parse_generic_format_nums
    rw [if_neg (by omega)]
  · intro hlen
    rw [hd]
    unfold _parse_generic_format _parse_generic_format_nums
    rw [if_pos (by omega)]

theorem c5_generic_witness :
    _parse_sensor_data "garbage".data = none
    ∧ _parse_sensor_data "27.3 55.6 39.7 24.2".data = some {
        device_id := some "unknown".data,
        ambient_temperature := some (some "27.3".data),
        humidity := some (some "55.6".data),
        soil_moisture := some (some "39.7".data),
        soil_temperature := some (some "24.2".data),
        wind_speed := some none, longitude := some none,
        latitude := some none, transmitted := some false } :=
  ⟨(c5_generic "garbage".data rfl rfl rfl rfl).1 (by decide),
   (c5_generic "27.3 55.6 39.7 24.2".data rfl rfl rfl rfl).2 (by decide)⟩

theorem sensorGet_setTransmitted (d : SensorDict) (x : Option Bool) (k : SKey) :
    sensorGet { d with transmitted := x } k = sensorGet d k := by
  cases k <;> rfl

theorem processPair_char (d : SensorDict) (p : Str) :
    (processPair d p).device_id =
      (if pairIsDevice p then some (pyStrip (valPart p)) else d.device_id)
    ∧ ∀ k, sensorGet (processPair d p) k =
        (if pairSKey p = some k then some (safe_floatStr (pyStrip (valPart p)))
         else sensorGet d k) := by
  by_cases he : '=' ∈ p
  case neg =>
    have h0 : pairIsDevice p = false := by simp [pairIsDevice, he]
    have h1 : pairSKey p = none := by simp [pairSKey, he]
    exact ⟨by simp [processPair, he, h0], fun k => by simp [processPair, he, h1]⟩
  case pos =>
    by_cases h1 : normKey p = "device_id".data
    · have hd : pairIsDevice p = true := by simp [pairIsDevice, he, h1]
      have hs : pairSKey p = none := by simp [pairSKey, he, h1, skeyOfStr]
      refine ⟨by simp [processPair, he, h1, hd], fun k => ?_⟩
      rw [hs]
      cases k <;> simp [processPair, he, h1, sensorGet]
    · by_cases h2 : normKey p = "ambient_temp".data
      · have hd : pairIsDevice p = false := by simp [pairIsDevice, h1]
        have hs : pairSKey p = some .kAmbient := by
          simp [pairSKey, he, skeyOfStr, h2]
        refine ⟨by simp [processPair, he, h1, h2, hd], fun k => ?_⟩
        rw [hs]
        cases k <;> simp [processPair, he, h1, h2, sensorGet]
      · by_cases h3 : normKey p = "humidity".data
        · have hd : pairIsDevice p = false := by simp [pairIsDevice, h1]
          have hs : pairSKey p = some .kHumidity := by
            simp [pairSKey, he, skeyOfStr, h2, h3]
          refine ⟨by simp [processPair, he, h1, h2, h3, hd], fun k => ?_⟩
          rw [hs]
          cases k <;> simp [processPair, he, h1, h2, h3, sensorGet]
        · by_cases h4 : normKey p = "soil_moisture".data
          · have hd : pairIsDevice p = false := by simp [pairIsDevice, h1]
            have hs : pairSKey p = some .kSoilM := by
              simp [pairSKey, he, skeyOfStr, h2, h3, h4]
            refine ⟨by simp [processPair, he, h1, h2, h3, h4, hd], fun k => ?_⟩
            rw [hs]
            cases k <;> simp [processPair, he, h1, h2, h3, h4, sensorGet]
          · by_cases h5 : normKey p = "soil_temp".data
            · have hd : pairIsDevice p = false := by simp [pairIsDevice, h1]
              have hs : pairSKey p = some .kSoilT := by
                simp [pairSKey, he, skeyOfStr, h2, h3, h4, h5]
              refine ⟨by simp [processPair, he, h1, h2, h3, h4, h5, hd],
                fun k => ?_⟩
              rw [hs]
              cases k <;> simp [processPair, he, h1, h2, h3, h4, h5, sensorGet]
            · by_cases h6 : normKey p = "wind_speed".data
              · have hd : pairIsDevice p = false := by simp [pairIsDevice, h1]
                have hs : pairSKey p = some .kWind := by
                  simp [pairSKey, he, skeyOfStr, h2, h3, h4, h5, h6]
                refine ⟨by simp [processPair, he, h1, h2, h3, h4, h5, h6, hd],
                  fun k => ?_⟩
                rw [hs]
                cases k <;>
                  simp [processPair, he, h1, h2, h3, h4, h5, h6, sensorGet]
              · by_cases h7 : normKey p = "longitude".data
                · have hd : pairIsDevice p = false := by simp [pairIsDevice, h1]
                  have hs : pairSKey p = some .kLong := by
                    simp [pairSKey, he, skeyOfStr, h2, h3, h4, h5, h6, h7]
                  refine
                    ⟨by simp [processPair, he, h1, h2, h3, h4, h5, h6, h7, hd],
                     fun k => ?_⟩
                  rw [hs]
                  cases k <;>
                    simp [processPair, he, h1, h2, h3, h4, h5, h6, h7, sensorGet]
                · by_cases h8 : normKey p = "latitude".data
                  · have hd : pairIsDevice p = false := by
                      simp [pairIsDevice, h1]
                    have hs : pairSKey p = some .kLat := by
                      simp [pairSKey, he, skeyOfStr, h2, h3, h4, h5, h6, h7, h8]
                    refine
                      ⟨by simp [processPair, he, h1, h2, h3, h4, h5, h6, h7,
                          h8, hd],
                       fun k => ?_⟩
                    rw [hs]
                    cases k <;>
                      simp [processPair, he, h1, h2, h3, h4, h5, h6, h7, h8,
                        sensorGet]
                  · have hd : pairIsDevice p = false := by
                      simp [pairIsDevice, h1]
                    have hs : pairSKey p = none := by
                      simp [pairSKey, he, skeyOfStr, h2, h3, h4, h5, h6, h7, h8]
                    refine
                      ⟨by simp [processPair, he, h1, h2, h3, h4, h5, h6, h7,
                          h8, hd],
                       fun k => ?_⟩
                    rw [hs]
                    cases k <;>
                      simp [processPair, he, h1, h2, h3, h4, h5, h6, h7, h8,
                        sensorGet]

theorem foldl_device : ∀ (ps : List Str) (d : SensorDict),
    (ps.foldl processPair d).device_id =
      (match lastDeviceVal ps with
       | some v => some v
       | none => d.device_id) := by
  intro ps
  induction ps with
  | nil => intro d; rfl
  | cons p rest ih =>
    intro d
    simp only [List.foldl_cons, lastDeviceVal]
    rw [ih]
    cases hrest : lastDeviceVal rest with
    | some v => rfl
    | none =>
      rw [(processPair_char d p).1]
      cases hp : pairIsDevice p <;> simp [hp]

theorem foldl_sensor (k : SKey) : ∀ (ps : List Str) (d : SensorDict),
    sensorGet (ps.foldl processPair d) k =
      (match lastSensorVal k ps with
       | some v => some v
       | none => sensorGet d k) := by
  intro ps
  induction ps with
  | nil => intro d; rfl
  | cons p rest ih =>
    intro d
    simp only [List.foldl_cons, lastSensorVal]
    rw [ih]
    cases hrest : lastSensorVal k rest with
    | some v => rfl
    | none =>
      rw [(processPair_char d p).2 k]
      by_cases hp : pairSKey p = some k <;> simp [hp]

theorem buildData_device (ps : List Str) :
    (buildData ps).device_id = lastDeviceVal ps := by
  unfold buildData
  rw [foldl_device]
  cases lastDeviceVal ps <;> rfl

theorem buildData_sensor (ps : List Str) (k : SKey) :
    sensorGet (buildData ps) k = lastSensorVal k ps := by
  unfold buildData
  rw [foldl_sensor]
  cases lastSensorVal k ps with
  | none => cases k <;> rfl
  | some v => rfl

/-- C10 (implicit): in a successfully parsed key=value line the reading
carries, for device_id and for each recognized sensor key, the value of
the last comma-segment assigning that key (later occurrences overwrite
earlier ones); and a comma-segment without `=` is silently skipped — it
contributes nothing to the dict the line builds. -/
theorem c10_last_occurrence_wins :
    (∀ s r, _parse_key_value_format s = some r →
      r.device_id = lastDeviceVal (pySplit ',' s)
      ∧ ∀ k, sensorGet r k = lastSensorVal k (pySplit ',' s))
    ∧ (∀ pre seg post, seg.elem '=' = false →
        buildData (pre ++ seg :: post) = buildData (pre ++ post)) := by
  constructor
  · intro s r hr
    unfold _parse_key_value_format at hr
    by_cases hc : kvCheck (buildData (pySplit ',' s)) = true
    · rw [if_pos hc] at hr
      have hr' := Option.some.inj hr
      subst hr'
      constructor
      · show (buildData (pySplit ',' s)).device_id = _
        exact buildData_device _
      · intro k
        rw [sensorGet_setTransmitted]
        exact buildData_sensor _ k
    · rw [if_neg hc] at hr
      exact absurd hr (by simp)
  · intro pre seg post hseg
    have hskip : ∀ d, processPair d seg = d := by
      intro d
      have : ¬('=' ∈ seg) := by
        intro hm
        rw [List.elem_iff.mpr hm] at hseg
        exact Bool.noConfusion hseg
      simp [processPair, this]
    unfold buildData
    rw [List.foldl_append, List.foldl_append, List.foldl_cons, hskip]

theorem c10_last_occurrence_wins_witness :
    (some (some "2".data) : Option (Option Str)) =
        lastSensorVal SKey.kHumidity
          (pySplit ',' "humidity=1,junk,HUMIDITY=2,device_id=D".data)
    ∧ (some "D".data : Option Str) =
        lastDeviceVal (pySplit ',' "humidity=1,junk,HUMIDITY=2,device_id=D".data)
    ∧ buildData (["humidity=1".data] ++ "junk".data :: []) =
        buildData (["humidity=1".data] ++ []) :=
  have h := c10_last_occurrence_wins
  have h1 := h.1 "humidity=1,junk,HUMIDITY=2,device_id=D".data
    { device_id := some "D".data,
      ambient_temperature := none,
      humidity := some (some "2".data),
      soil_moisture := none, soil_temperature := none,
      wind_speed := none, longitude := none, latitude := none,
      transmitted := some false } rfl
  ⟨h1.2 SKey.kHumidity, h1.1,
   h.2 ["humidity=1".data] "junk".data [] rfl⟩

theorem lastDeviceVal_isSome (ps : List Str) :
    (lastDeviceVal ps).isSome = hasDevicePairAny ps := by
  induction ps with
  | nil => rfl
  | cons p rest ih =>
    simp only [lastDeviceVal, hasDevicePairAny, List.any_cons]
    cases hrest : lastDeviceVal rest with
    | some v =>
      have hr : rest.any pairIsDevice = true := by
        have := ih
        rw [hrest] at this
        exact this.symm
      simp [hr]
    | none =>
      have hr : rest.any pairIsDevice = false := by
        have := ih
        rw [hrest] at this
        exact this.symm
      rw [hr]
      cases hp : pairIsDevice p <;> simp [hp]

theorem lastSensorVal_isSome (k : SKey) (ps : List Str) :
    (lastSensorVal k ps).isSome =
      ps.any (fun p => decide (pairSKey p = some k)) := by
  induction ps with
  | nil => rfl
  | cons p rest ih =>
    simp only [lastSensorVal, List.any_cons]
    cases hrest : lastSensorVal k rest with
    | some v =>
      have hr : rest.any (fun p => decide (pairSKey p = some k)) = true := by
        have := ih
        rw [hrest] at this
        exact this.symm
      simp [hr]
    | none =>
      have hr : rest.any (fun p => decide (pairSKey p = some k)) = false := by
        have := ih
        rw [hrest] at this
        exact this.symm
      rw [hr]
      by_cases hp : pairSKey p = some k <;> simp [hp]

theorem pairSKey_isSome_decomp (p : Str) :
    (pairSKey p).isSome =
      (decide (pairSKey p = some SKey.kAmbient) ||
       decide (pairSKey p = some SKey.kHumidity) ||
       decide (pairSKey p = some SKey.kSoilM) ||
       decide (pairSKey p = some SKey.kSoilT) ||
       decide (pairSKey p = some SKey.kWind) ||
       decide (pairSKey p = some SKey.kLong) ||
       decide (pairSKey p = some SKey.kLat)) := by
  cases h : pairSKey p with
  | none => simp
  | some k => cases k <;> simp

theorem any_orb (l : List α) (f g : α → Bool) :
    l.any (fun x => f x || g x) = (l.any f || l.any g) := by
  induction l with
  | nil => rfl
  | cons a t ih =>
    simp only [List.any_cons, ih]
    cases f a <;> cases g a <;> simp

theorem any_congr (l : List α) (f g : α → Bool) (h : ∀ x, f x = g x) :
    l.any f = l.any g := by
  induction l with
  | nil => rfl
  | cons a t ih => simp only [List.any_cons, h, ih]

theorem hasSensorKeyAny_decomp (ps : List Str) :
    hasSensorKeyAny ps =
      (ps.any (fun p => decide (pairSKey p = some SKey.kAmbient)) ||
       ps.any (fun p => decide (pairSKey p = some SKey.kHumidity)) ||
       ps.any (fun p => decide (pairSKey p = some SKey.kSoilM)) ||
       ps.any (fun p => decide (pairSKey p = some SKey.kSoilT)) ||
       ps.any (fun p => decide (pairSKey p = some SKey.kWind)) ||
       ps.any (fun p => decide (pairSKey p = some SKey.kLong)) ||
       ps.any (fun p => decide (pairSKey p = some SKey.kLat))) := by
  unfold hasSensorKeyAny
  rw [any_congr ps _ _ pairSKey_isSome_decomp]
  simp only [any_orb]

theorem kvCheck_buildData (ps : List Str) :
    kvCheck (buildData ps) = (hasDevicePairAny ps && hasSensorKeyAny ps) := by
  have hdev : (buildData ps).device_id.isSome = hasDevicePairAny ps := by
    rw [buildData_device, lastDeviceVal_isSome]
  have hs : ∀ k, (sensorGet (buildData ps) k).isSome =
      ps.any (fun p => decide (pairSKey p = some k)) := fun k => by
    rw [buildData_sensor, lastSensorVal_isSome]
  unfold kvCheck
  rw [hdev, hasSensorKeyAny_decomp]
  have e1 := hs SKey.kAmbient
  have e2 := hs SKey.kHumidity
  have e3 := hs SKey.kSoilM
  have e4 := hs SKey.kSoilT
  have e5 := hs SKey.kWind
  have e6 := hs SKey.kLong
  have e7 := hs SKey.kLat
  simp only [sensorGet] at e1 e2 e3 e4 e5 e6 e7
  rw [e1, e2, e3, e4, e5, e6, e7]

/-- C2 (amended): for a trimmed line classified as key=value (contains
`=`, not brace-delimited), the parse succeeds if and only if the line
has a `device_id` pair AND a pair with a recognized sensor key; it fails
when either is missing — in particular a line supplying only a
device_id, or only sensor keys without device_id, fails. -/
theorem c2_kv_success_condition (s : Str) (hTrim : pyStrip s = s)
    (hBrace : (startsBrace s && endsBrace s) = false)
    (hEq : s.elem '=' = true) :
    (_parse_sensor_data s).isSome =
      (hasDevicePairAny (pySplit ',' s) && hasSensorKeyAny (pySplit ',' s)) := by
  have hd := parse_eq_dispatch s hTrim
  rw [classify_kv s hBrace hEq] at hd
  rw [hd]
  unfold _parse_key_value_format
  rw [← kvCheck_buildData]
  cases h : kvCheck (buildData (pySplit ',' s)) <;> simp [h]

theorem c2_kv_success_condition_witness :
    (_parse_sensor_data "humidity=1".data).isSome =
      (hasDevicePairAny (pySplit ',' "humidity=1".data) &&
       hasSensorKeyAny (pySplit ',' "humidity=1".data)) :=
  c2_kv_success_condition "humidity=1".data rfl rfl rfl

/-- C2 is false as stated: the line `device_id=T3` supplies a device_id
pair, yet the parse fails (the code requires a sensor key in addition to
the device_id, not instead of it). -/
theorem c2_counterexample :
    hasDevicePairAny (pySplit ',' "device_id=T3".data) = true
    ∧ _parse_sensor_data "device_id=T3".data = none :=
  ⟨rfl, rfl⟩

theorem toNat_ofNat_valid (m : Nat) (h : m < 55296) :
    (Char.ofNat m).toNat = m := by
  have hv : Nat.isValidChar m := Or.inl h
  unfold Char.ofNat
  rw [dif_pos hv]
  unfold Char.ofNatAux Char.toNat
  simp [UInt32.toNat]

theorem isPyWS_toLower (c : Char) : isPyWS (Char.toLower c) = isPyWS c := by
  by_cases hws : isPyWS c = true
  · have hcs : ((((c = ' ' ∨ c = '\t') ∨ c = '\n') ∨ c = '\x0d') ∨
        c = '\x0b') ∨ c = '\x0c' := by
      simpa [isPyWS] using hws
    rcases hcs with ((((rfl | rfl) | rfl) | rfl) | rfl) | rfl <;> decide
  · have hws' : isPyWS c = false := by
      revert hws
      cases isPyWS c <;> simp
    rw [hws']
    show isPyWS
      (if c.toNat ≥ 65 ∧ c.toNat ≤ 90 then Char.ofNat (c.toNat + 32) else c) =
        false
    split_ifs with h
    · have ht : (Char.ofNat (c.toNat + 32)).toNat = c.toNat + 32 :=
        toNat_ofNat_valid _ (by omega)
      have g : ∀ d : Char, d.toNat < 97 → Char.ofNat (c.toNat + 32) ≠ d := by
        intro d hd he
        rw [← he, ht] at hd
        omega
      unfold isPyWS
      simp [g ' ' (by decide), g '\t' (by decide), g '\n' (by decide),
        g '\r' (by decide), g '\x0b' (by decide), g '\x0c' (by decide)]
    · exact hws'

theorem dropWhile_lower (l : Str) :
    (lowerStr l).dropWhile isPyWS = lowerStr (l.dropWhile isPyWS) := by
  induction l with
  | nil => rfl
  | cons c cs ih =>
    simp only [lowerStr, List.map_cons, List.dropWhile]
    rw [isPyWS_toLower c]
    cases h : isPyWS c with
    | true => simpa [lowerStr] using ih
    | false => simp [lowerStr]

theorem pyStrip_lower (l : Str) :
    pyStrip (lowerStr l) = lowerStr (pyStrip l) := by
  unfold pyStrip
  rw [dropWhile_lower]
  rw [show (lowerStr (l.dropWhile isPyWS)).reverse =
      lowerStr (l.dropWhile isPyWS).reverse by simp [lowerStr]]
  rw [dropWhile_lower]
  simp [lowerStr]

theorem normKey_eq_of (p q : Str)
    (h : lowerStr (keyPart p) = lowerStr (keyPart q)) :
    normKey p = normKey q := by
  unfold normKey
  rw [← pyStrip_lower, ← pyStrip_lower, h]

theorem processPair_eqv (p q : Str) (h : eqvPair p q = true) (d : SensorDict) :
    processPair d p = processPair d q := by
  unfold eqvPair at h
  cases hpe : List.elem '=' p with
  | false =>
    have hnp : ¬(List.elem '=' p = true) := by
      intro hc
      rw [hpe] at hc
      exact Bool.noConfusion hc
    rw [if_neg hnp] at h
    have hpq : p = q := of_decide_eq_true h
    rw [hpq]
  | true =>
    rw [if_pos hpe] at h
    rw [Bool.and_eq_true, Bool.and_eq_true] at h
    obtain ⟨⟨hqe, hk⟩, hv⟩ := h
    have hkey := of_decide_eq_true hk
    have hval := of_decide_eq_true hv
    have hn := normKey_eq_of p q hkey
    unfold processPair
    rw [hpe, hqe, hn, hval]

theorem foldl_congr_eqv : ∀ (ps qs : List Str), eqvPairs ps qs = true →
    ∀ d, ps.foldl processPair d = qs.foldl processPair d := by
  intro ps
  induction ps with
  | nil =>
    intro qs h d
    cases qs with
    | nil => rfl
    | cons q qs => simp [eqvPairs] at h
  | cons p ps ih =>
    intro qs h d
    cases qs with
    | nil => simp [eqvPairs] at h
    | cons q qs =>
      simp only [eqvPairs, Bool.and_eq_true] at h
      simp only [List.foldl_cons]
      rw [processPair_eqv p q h.1 d]
      exact ih qs h.2 (processPair d q)

/-- C6: the case of keys in a key=value line is irrelevant — for two
trimmed key=value lines whose comma-segments agree up to the character
case of the key portions (values and `=`-free segments verbatim equal),
the parse results are identical. -/
theorem c6_key_case_insensitive (s t : Str)
    (hTrimS : pyStrip s = s) (hTrimT : pyStrip t = t)
    (hBrS : (startsBrace s && endsBrace s) = false)
    (hBrT : (startsBrace t && endsBrace t) = false)
    (hEqS : s.elem '=' = true) (hEqT : t.elem '=' = true)
    (heqv : eqvPairs (pySplit ',' s) (pySplit ',' t) = true) :
    _parse_sensor_data s = _parse_sensor_data t := by
  have hds := parse_eq_dispatch s hTrimS
  rw [classify_kv s hBrS hEqS] at hds
  have hdt := parse_eq_dispatch t hTrimT
  rw [classify_kv t hBrT hEqT] at hdt
  rw [hds, hdt]
  unfold _parse_key_value_format buildData
  rw [foldl_congr_eqv _ _ heqv]

theorem c6_key_case_insensitive_witness :
    _parse_sensor_data "DEVICE_ID=X,Humidity=1".data =
      _parse_sensor_data "device_id=X,humidity=1".data :=
  c6_key_case_insensitive "DEVICE_ID=X,Humidity=1".data
    "device_id=X,humidity=1".data rfl rfl rfl rfl rfl rfl (by decide)

theorem dropWhile_no_ws (l : Str) (h : ∀ c ∈ l, isPyWS c = false) :
    l.dropWhile isPyWS = l := by
  cases l with
  | nil => rfl
  | cons c cs => simp [List.dropWhile, h c (by simp)]

theorem pyStrip_no_ws (l : Str) (h : ∀ c ∈ l, isPyWS c = false) :
    pyStrip l = l := by
  unfold pyStrip
  rw [dropWhile_no_ws l h]
  rw [dropWhile_no_ws l.reverse (fun c hc => h c (List.mem_reverse.mp hc))]
  exact List.reverse_reverse l

theorem takeWhile_all (p : α → Bool) :
    ∀ (l : List α), (∀ c ∈ l, p c = true) → l.takeWhile p = l := by
  intro l
  induction l with
  | nil => intro h; rfl
  | cons a t ih =>
    intro h
    have hpa := h a (by simp)
    have ht := ih (fun c hc => h c (by simp [hc]))
    simp [List.takeWhile, hpa, ht]

theorem dropWhile_all (p : α → Bool) :
    ∀ (l : List α), (∀ c ∈ l, p c = true) → l.dropWhile p = [] := by
  intro l
  induction l with
  | nil => intro h; rfl
  | cons a t ih =>
    intro h
    have hpa := h a (by simp)
    have ht := ih (fun c hc => h c (by simp [hc]))
    simp [List.dropWhile, hpa, ht]

theorem takeWhile_append_all (p : α → Bool) (l2 : List α) :
    ∀ (l1 : List α), (∀ c ∈ l1, p c = true) →
      (l1 ++ l2).takeWhile p = l1 ++ l2.takeWhile p := by
  intro l1
  induction l1 with
  | nil => intro h; rfl
  | cons a t ih =>
    intro h
    have hpa := h a (by simp)
    have ht := ih (fun c hc => h c (by simp [hc]))
    simp [List.takeWhile, hpa, ht]

theorem dropWhile_append_all (p : α → Bool) (l2 : List α) :
    ∀ (l1 : List α), (∀ c ∈ l1, p c = true) →
      (l1 ++ l2).dropWhile p = l2.dropWhile p := by
  intro l1
  induction l1 with
  | nil => intro h; rfl
  | cons a t ih =>
    intro h
    have hpa := h a (by simp)
    have ht := ih (fun c hc => h c (by simp [hc]))
    simp [List.dropWhile, hpa, ht]

theorem mem_takeWhile_pred (p : α → Bool) :
    ∀ (l : List α) (c : α), c ∈ l.takeWhile p → p c = true := by
  intro l
  induction l with
  | nil => intro c hc; simp [List.takeWhile] at hc
  | cons a t ih =>
    intro c hc
    cases hpa : p a with
    | false => simp [List.takeWhile, hpa] at hc
    | true =>
      simp only [List.takeWhile, hpa] at hc
      rcases List.mem_cons.mp hc with rfl | hc2
      · exact hpa
      · exact ih c hc2

theorem isDigit_not_ws (c : Char) (h : Char.isDigit c = true) :
    isPyWS c = false := by
  cases hws : isPyWS c with
  | false => rfl
  | true =>
    have hcs : ((((c = ' ' ∨ c = '\t') ∨ c = '\n') ∨ c = '\x0d') ∨
        c = '\x0b') ∨ c = '\x0c' := by
      simpa [isPyWS] using hws
    rcases hcs with ((((rfl | rfl) | rfl) | rfl) | rfl) | rfl <;>
      exact absurd h (by decide)

theorem floatBody_digits (ds : Str) (hne : ds ≠ [])
    (h1 : ∀ c ∈ ds, Char.isDigit c = true) : floatBody ds = true := by
  unfold floatBody spanDigits
  rw [takeWhile_all _ ds h1, dropWhile_all _ ds h1]
  have he : ds.isEmpty = false := by
    cases ds with
    | nil => exact absurd rfl hne
    | cons a t => rfl
  simp [he, expOk]

theorem floatBody_digits_dot (ds ds2 : Str) (hne : ds ≠ [])
    (h1 : ∀ c ∈ ds, Char.isDigit c = true)
    (h2 : ∀ c ∈ ds2, Char.isDigit c = true) :
    floatBody (ds ++ '.' :: ds2) = true := by
  unfold floatBody spanDigits
  rw [takeWhile_append_all _ _ ds h1, dropWhile_append_all _ _ ds h1]
  have ht : ('.' :: ds2).takeWhile Char.isDigit = [] := by
    simp [List.takeWhile]
  have hd : ('.' :: ds2).dropWhile Char.isDigit = '.' :: ds2 := by
    simp [List.dropWhile]
  rw [ht, hd, List.append_nil]
  have he : ds.isEmpty = false := by
    cases ds with
    | nil => exact absurd rfl hne
    | cons a t => rfl
  simp [he, dropWhile_all _ ds2 h2, expOk]

theorem pyFloatValid_digits (ds : Str) (hne : ds ≠ [])
    (h1 : ∀ c ∈ ds, Char.isDigit c = true) : pyFloatValid ds = true := by
  have hws : ∀ c ∈ ds, isPyWS c = false := fun c hc => isDigit_not_ws c (h1 c hc)
  unfold pyFloatValid
  rw [pyStrip_no_ws ds hws]
  cases ds with
  | nil => exact absurd rfl hne
  | cons d0 t =>
    have hd0 := h1 d0 (by simp)
    have hno : ¬((d0 :: t).take 1 = ['+'] ∨ (d0 :: t).take 1 = ['-']) := by
      intro hc
      rcases hc with hc | hc <;>
        · simp [List.take] at hc
          rw [hc] at hd0
          exact absurd hd0 (by decide)
    have hss : stripSign (d0 :: t) = d0 :: t := by
      unfold stripSign
      rw [if_neg hno]
    rw [hss, floatBody_digits (d0 :: t) hne h1]
    simp

theorem pyFloatValid_digits_dot (ds ds2 : Str) (hne : ds ≠ [])
    (h1 : ∀ c ∈ ds, Char.isDigit c = true)
    (h2 : ∀ c ∈ ds2, Char.isDigit c = true) :
    pyFloatValid (ds ++ '.' :: ds2) = true := by
  have hws : ∀ c ∈ ds ++ '.' :: ds2, isPyWS c = false := by
    intro c hc
    rcases List.mem_append.mp hc with hl | hr
    · exact isDigit_not_ws c (h1 c hl)
    · rcases List.mem_cons.mp hr with rfl | hr2
      · decide
      · exact isDigit_not_ws c (h2 c hr2)
  unfold pyFloatValid
  rw [pyStrip_no_ws _ hws]
  cases ds with
  | nil => exact absurd rfl hne
  | cons d0 t =>
    have hd0 := h1 d0 (by simp)
    have hno : ¬(((d0 :: t) ++ '.' :: ds2).take 1 = ['+'] ∨
        ((d0 :: t) ++ '.' :: ds2).take 1 = ['-']) := by
      intro hc
      rcases hc with hc | hc <;>
        · simp [List.take] at hc
          rw [hc] at hd0
          exact absurd hd0 (by decide)
    have hss : stripSign ((d0 :: t) ++ '.' :: ds2) = (d0 :: t) ++ '.' :: ds2 := by
      unfold stripSign
      rw [if_neg hno]
    rw [hss, floatBody_digits_dot (d0 :: t) ds2 hne h1 h2]
    simp

theorem pyFloatValid_neg_digits (ds : Str) (hne : ds ≠ [])
    (h1 : ∀ c ∈ ds, Char.isDigit c = true) :
    pyFloatValid ('-' :: ds) = true := by
  have hws : ∀ c ∈ '-' :: ds, isPyWS c = false := by
    intro c hc
    rcases List.mem_cons.mp hc with rfl | hc2
    · decide
    · exact isDigit_not_ws c (h1 c hc2)
  unfold pyFloatValid
  rw [pyStrip_no_ws _ hws]
  have hss : stripSign ('-' :: ds) = ds := by
    simp [stripSign]
  rw [hss, floatBody_digits ds hne h1]
  simp

theorem pyFloatValid_neg_digits_dot (ds ds2 : Str) (hne : ds ≠ [])
    (h1 : ∀ c ∈ ds, Char.isDigit c = true)
    (h2 : ∀ c ∈ ds2, Char.isDigit c = true) :
    pyFloatValid ('-' :: ds ++ '.' :: ds2) = true := by
  have hws : ∀ c ∈ '-' :: ds ++ '.' :: ds2, isPyWS c = false := by
    intro c hc
    rcases List.mem_cons.mp hc with rfl | hc2
    · decide
    · rcases List.mem_append.mp hc2 with hl | hr
      · exact isDigit_not_ws c (h1 c hl)
      · rcases List.mem_cons.mp hr with rfl | hr2
        · decide
        · exact isDigit_not_ws c (h2 c hr2)
  unfold pyFloatValid
  rw [pyStrip_no_ws _ hws]
  have hss : stripSign ('-' :: ds ++ '.' :: ds2) = ds ++ '.' :: ds2 := by
    simp [stripSign]
  rw [hss, floatBody_digits_dot ds ds2 hne h1 h2]
  simp

theorem matchNumAt_valid (l tok rest : Str)
    (h : matchNumAt l = some (tok, rest)) : pyFloatValid tok = true := by
  cases l with
  | nil => exact absurd h (by simp [matchNumAt])
  | cons c cs =>
    simp only [matchNumAt] at h
    by_cases hc : c = '-'
    · rw [if_pos hc] at h
      by_cases hemp : (cs.takeWhile Char.isDigit).isEmpty = true
      · rw [if_pos hemp] at h
        exact absurd h (by simp)
      · rw [if_neg hemp] at h
        have hne : cs.takeWhile Char.isDigit ≠ [] := by
          intro hnil
          rw [hnil] at hemp
          exact hemp rfl
        have hds : ∀ x ∈ cs.takeWhile Char.isDigit, Char.isDigit x = true :=
          fun x hx => mem_takeWhile_pred _ cs x hx
        have h2 : afterDigits ('-' :: cs.takeWhile Char.isDigit)
            (cs.dropWhile Char.isDigit) = (tok, rest) := Option.some.inj h
        unfold afterDigits at h2
        by_cases hdot : (cs.dropWhile Char.isDigit).take 1 = ['.']
        · rw [if_pos hdot] at h2
          injection h2 with htok hrest
          subst htok
          exact pyFloatValid_neg_digits_dot _ _ hne hds
            (fun x hx => mem_takeWhile_pred _ _ x hx)
        · rw [if_neg hdot] at h2
          injection h2 with htok hrest
          subst htok
          exact pyFloatValid_neg_digits _ hne hds
    · rw [if_neg hc] at h
      by_cases hcd : Char.isDigit c = true
      · rw [if_pos hcd] at h
        have hne : (c :: cs).takeWhile Char.isDigit ≠ [] := by
          simp [List.takeWhile, hcd]
        have hds : ∀ x ∈ (c :: cs).takeWhile Char.isDigit,
            Char.isDigit x = true :=
          fun x hx => mem_takeWhile_pred _ _ x hx
        have h2 : afterDigits ((c :: cs).takeWhile Char.isDigit)
            ((c :: cs).dropWhile Char.isDigit) = (tok, rest) := Option.some.inj h
        unfold afterDigits at h2
        by_cases hdot : ((c :: cs).dropWhile Char.isDigit).take 1 = ['.']
        · rw [if_pos hdot] at h2
          injection h2 with htok hrest
          subst htok
          exact pyFloatValid_digits_dot _ _ hne hds
            (fun x hx => mem_takeWhile_pred _ _ x hx)
        · rw [if_neg hdot] at h2
          injection h2 with htok hrest
          subst htok
          exact pyFloatValid_digits _ hne hds
      · rw [if_neg hcd] at h
        exact absurd h (by simp)

theorem findNumbersAux_valid : ∀ (fuel : Nat) (l tok : Str),
    tok ∈ findNumbersAux fuel l → pyFloatValid tok = true := by
  intro fuel
  induction fuel with
  | zero => intro l tok h; simp [findNumbersAux] at h
  | succ n ih =>
    intro l tok h
    cases l with
    | nil => simp [findNumbersAux] at h
    | cons c cs =>
      unfold findNumbersAux at h
      cases hm : matchNumAt (c :: cs) with
      | some pr =>
        rcases pr with ⟨t0, r0⟩
        rw [hm] at h
        rcases List.mem_cons.mp h with rfl | h2
        · exact matchNumAt_valid _ _ _ hm
        · exact ih _ _ h2
      | none =>
        rw [hm] at h
        exact ih _ _ h

theorem findNumbers_valid (s tok : Str) (h : tok ∈ findNumbers s) :
    pyFloatValid tok = true :=
  findNumbersAux_valid _ _ _ h

theorem getD_mem : ∀ (l : List α) (n : Nat) (d : α), n < l.length →
    l.getD n d ∈ l := by
  intro l
  induction l with
  | nil => intro n d h; simp at h
  | cons a t ih =>
    intro n d h
    cases n with
    | zero => simp [List.getD]
    | succ m =>
      have hm : m < t.length := by
        simp at h
        omega
      simpa [List.getD] using List.mem_cons_of_mem a (ih m d hm)

/-- C1 (amended): for every trimmed line that is not brace-delimited
(so classified key=value, delimited, or generic numeric), a successful
parse yields a reading with at least one sensor field carrying a value,
or with a device identifier explicitly supplied by the line.  The
structured-object branch violates the original claim (see the
counterexample on the input consisting of an empty object), so the
amendment excludes brace-delimited lines. -/
theorem c1_sensor_or_device (s : Str) (hTrim : pyStrip s = s)
    (hBrace : (startsBrace s && endsBrace s) = false) :
    ∀ r, _parse_sensor_data s = some r →
      hasSensorValue r = true ∨ suppliesDeviceId s = true := by
  intro r hr
  have hd := parse_eq_dispatch s hTrim
  by_cases heq : s.elem '=' = true
  · rw [classify_kv s hBrace heq] at hd
    rw [hd] at hr
    right
    unfold suppliesDeviceId
    rw [classify_kv s hBrace heq]
    unfold _parse_key_value_format at hr
    by_cases hc : kvCheck (buildData (pySplit ',' s)) = true
    · rw [kvCheck_buildData, Bool.and_eq_true] at hc
      exact hc.1
    · rw [if_neg hc] at hr
      exact absurd hr (by simp)
  · have heq' : s.elem '=' = false := by
      revert heq
      cases s.elem '=' <;> simp
    by_cases hcm : s.elem ',' = true
    · right
      unfold suppliesDeviceId
      rw [classify_csv s hBrace heq' hcm]
    · have hcm' : s.elem ',' = false := by
        revert hcm
        cases s.elem ',' <;> simp
      rw [classify_generic s hBrace heq' hcm'] at hd
      rw [hd] at hr
      have hr2 : _parse_generic_format s = some r := hr
      left
      unfold _parse_generic_format _parse_generic_format_nums at hr2
      by_cases hlen : 4 ≤ (findNumbers s).length
      · rw [if_pos hlen] at hr2
        have hreq : r = _ := (Option.some.inj hr2).symm
        subst hreq
        have hmem : (findNumbers s).getD 0 [] ∈ findNumbers s :=
          getD_mem _ 0 _ (by omega)
        have hval := findNumbers_valid s _ hmem
        have hsf : safe_floatStr ((findNumbers s).getD 0 []) =
            some ((findNumbers s).getD 0 []) := by
          unfold safe_floatStr
          rw [if_pos hval]
        show (presentVal (some (safe_floatStr ((findNumbers s).getD 0 []))) ||
          _ || _ || _ || _ || _ || _) = true
        rw [hsf]
        simp [presentVal]
      · rw [if_neg hlen] at hr2
        exact absurd hr2 (by simp)

theorem c1_sensor_or_device_witness :
    hasSensorValue {
      device_id := some "T2".data,
      ambient_temperature := some (some "26.1".data),
      humidity := some (some "58.9".data),
      soil_moisture := some (some "42.3".data),
      soil_temperature := some (some "23.5".data),
      wind_speed := some none, longitude := some none,
      latitude := some none, transmitted := some false } = true
    ∨ suppliesDeviceId "T2,26.1,58.9,42.3,23.5".data = true :=
  c1_sensor_or_device "T2,26.1,58.9,42.3,23.5".data rfl rfl _ rfl

/-- C1 is false as stated: the line consisting of the empty object is
brace-delimited, parses successfully, yet the resulting reading has all
seven sensor fields valueless and a device_id defaulted to unknown with
no device identifier supplied by the line. -/
theorem c1_counterexample :
    _parse_sensor_data "{}".data = some {
      device_id := some "unknown".data,
      ambient_temperature := some none, humidity := some none,
      soil_moisture := some none, soil_temperature := some none,
      wind_speed := some none, longitude := some none, latitude := some none,
      transmitted := some false }
    ∧ hasSensorValue {
      device_id := some "unknown".data,
      ambient_temperature := some none, humidity := some none,
      soil_moisture := some none, soil_temperature := some none,
      wind_speed := some none, longitude := some none, latitude := some none,
      transmitted := some false } = false
    ∧ suppliesDeviceId "{}".data = false :=
  ⟨rfl, rfl, rfl⟩

end Mizu
